import Mathlib

/-!
# Verification of `kornia.augmentation._2d.geometric.center_crop.CenterCrop`

A shallow embedding of `src/kornia/augmentation/_2d/geometric/center_crop.py`
together with proofs about its behaviour.

The file under verification is a thin glue component: the tensor engine, the
perspective solver (`get_perspective_transform`), the warp kernel
(`crop_by_transform_mat`) and the parameter generator
(`rg.center_crop_generator`) are external collaborators that are not part of
the repository sources given here; they are modelled from the specification
(each such definition carries a doc comment starting `Modelled from the spec:`).
Everything else is translated directly from the Python source.
-/

namespace CenterCropSpec

/-- A batched 4-D image tensor of shape `(B, C, H, W)`.  Pixel values are
integers (the claims under verification only ever inspect exact copies of
input pixels, never interpolated values, so an integer carrier is faithful).
`data` is a total function; only indices below the bounds are meaningful. -/
structure Tensor4 where
  B : Nat
  C : Nat
  H : Nat
  W : Nat
  data : Nat → Nat → Nat → Nat → Int

/-- Normalisation of a Python slice endpoint against an axis of length `len`:
a negative index counts from the end, and the result is clamped to
`[0, len]`.  This is the semantics of `t[..., a:b, c:d]` endpoints in
PyTorch/NumPy. -/
def pyIdx (len : Nat) (i : Int) : Nat :=
  if i < 0 then (i + len).toNat else min i.toNat len

/-- The tensor `t[..., y1:y2, x1:x2]`: both trailing spatial axes are sliced,
batch and channel axes are kept.  The output height is
`pyIdx H y2 - pyIdx H y1` (truncated at zero), likewise for the width, and
pixel `(i, j)` of the output is pixel `(ys + i, xs + j)` of the input. -/
def sliceHW (t : Tensor4) (y1 y2 x1 x2 : Int) : Tensor4 :=
  let ys := pyIdx t.H y1
  let ye := pyIdx t.H y2
  let xs := pyIdx t.W x1
  let xe := pyIdx t.W x2
  { B := t.B, C := t.C, H := ye - ys, W := xe - xs,
    data := fun b c i j => t.data b c (ys + i) (xs + j) }

/-- A single `3 × 3` transform matrix (entries rational: the homography of an
axis-aligned crop is a rational translation-plus-scale). -/
def Mat3 : Type := Fin 3 → Fin 3 → Rat

/-- A batch of `3 × 3` matrices, i.e. a tensor of shape `(N, 3, 3)`. -/
structure BatchedMat where
  N : Nat
  mat : Nat → Mat3

/-- The parameter mapping returned by the parameter generator: tensors
`src` and `dst` of shape `(N, 4, 2)` holding, for every batch index, four
corner points.  A point is an `(x, y)` pair; `src b k` is `src[b, k, :]` of
the Python tensor, with `.1` the x- and `.2` the y-coordinate. -/
structure CropParams where
  N : Nat
  src : Nat → Fin 4 → Int × Int
  dst : Nat → Fin 4 → Int × Int

/-- Modelled from the spec: `rg.center_crop_generator(batch_size, height,
width, size, device)` is not part of the given sources.  Per §4.1 of the
specification it "computes integer center-aligned corner coordinates once
(same for every sample in the batch)" and returns `src`/`dst` corner tensors;
per §4.2 a "single computed matrix" is then broadcast across the batch, so the
corner tensors carry a single correspondence (`N = 1`).  The corners are
ordered top-left, top-right, bottom-right, bottom-left; the center-aligned
start offset is the truncated half-difference of the sizes (Python `int()`
truncates toward zero, hence `Int.tdiv`). -/
def center_crop_generator (height width : Nat) (size : Nat × Nat) : CropParams :=
  let h := size.1
  let w := size.2
  let start_x : Int := ((width : Int) - (w : Int)).tdiv 2
  let start_y : Int := ((height : Int) - (h : Int)).tdiv 2
  let end_x : Int := start_x + (w : Int) - 1
  let end_y : Int := start_y + (h : Int) - 1
  { N := 1,
    src := fun _ k =>
      match k with
      | 0 => (start_x, start_y)
      | 1 => (end_x, start_y)
      | 2 => (end_x, end_y)
      | 3 => (start_x, end_y),
    dst := fun _ k =>
      match k with
      | 0 => (0, 0)
      | 1 => ((w : Int) - 1, 0)
      | 2 => ((w : Int) - 1, (h : Int) - 1)
      | 3 => (0, (h : Int) - 1) }

/-- The type of a deterministic 4-point perspective solver: from one
`src`/`dst` corner correspondence it yields a `3 × 3` matrix.  The concrete
solver lives in the external geometry library; all theorems below hold for
every such solver, which is the faithful reading of the specification's
"unique 3×3 projective transform mapping src→dst". -/
def Solver : Type := (Fin 4 → Int × Int) → (Fin 4 → Int × Int) → Mat3

/-- Modelled from the spec: `get_perspective_transform(src, dst)` (external
geometry library) solves, for each batch index of its `(N, 4, 2)` arguments,
the perspective transform of that correspondence, returning an `(N, 3, 3)`
tensor. -/
def get_perspective_transform (solve : Solver) (p : CropParams) : BatchedMat :=
  { N := p.N, mat := fun i => solve (p.src i) (p.dst i) }

/-- `m.expand(B, -1, -1)` of PyTorch on a tensor of shape `(N, 3, 3)`:
a size-1 leading axis is broadcast to `B`; an axis already of size `B` is
left alone; any other size is a runtime error. -/
def expandBatch (B : Nat) (m : BatchedMat) : Except String BatchedMat :=
  if m.N = 1 then .ok { N := B, mat := fun _ => m.mat 0 }
  else if m.N = B then .ok { N := B, mat := m.mat }
  else .error ("expand: the expanded size " ++ toString B ++
    " must match the existing size " ++ toString m.N ++ " at dimension 0")

/-- The type of an interpolating warp kernel: given the input tensor, the
transform batch, the output size, the interpolation-mode name, the
padding-mode name and the align-corners flag, it yields the value of output
pixel `(b, c, i, j)`.  The concrete kernel is the external
`crop_by_transform_mat`; all theorems below hold for every such kernel. -/
def Interp : Type :=
  Tensor4 → BatchedMat → (Nat × Nat) → String → String → Bool →
    Nat → Nat → Nat → Nat → Int

/-- Modelled from the spec: `crop_by_transform_mat(input, transform, size,
mode, padding_mode, align_corners)` (external geometry library) "warps the
input into the output grid via interpolation", "producing a tensor of the
requested ... size": the output has the batch and channel extents of the
input and the requested spatial size, and its pixel values are produced by
the interpolation kernel. -/
def crop_by_transform_mat (interp : Interp) (input : Tensor4) (m : BatchedMat)
    (size : Nat × Nat) (mode pad : String) (align : Bool) : Tensor4 :=
  { B := input.B, C := input.C, H := size.1, W := size.2,
    data := fun b c i j => interp input m size mode pad align b c i j }

/-- The `size` argument of `CenterCrop.__init__`: an `int`, a tuple of two
ints, or a value of any other Python type, carried with that type's name. -/
inductive SizeArg where
  | int : Nat → SizeArg
  | pair : Nat → Nat → SizeArg
  | other : String → SizeArg

/-- The frozen configuration of a constructed `CenterCrop` instance: the
stored crop `size`, the entries of `self.flags`, and the arguments the
constructor forwards to the augmentation base class
(`p`, `same_on_batch`, `p_batch`, `return_transform`, `keepdim`). -/
structure CenterCrop where
  size : Nat × Nat
  align_corners : Bool
  resample : String
  cropping_mode : String
  same_on_batch : Bool
  baseP : Rat
  basePBatch : Rat
  return_transform : Bool
  keepdim : Bool

/-- `CenterCrop.__init__`.  The base class receives `p=1.0`,
`same_on_batch=True` and `p_batch=p` (the user's `p`), per the source:
`super().__init__(p=1.0, return_transform=return_transform,
same_on_batch=True, p_batch=p, keepdim=keepdim)`.  A tuple `size` is stored
as `(size[0], size[1])`, an int `s` as `(s, s)`, and any other type raises
`Exception(f"Invalid size type. Expected (int, tuple(int, int). Got:
{type(size)}.")`.  The `resample` flag is stored resolved by the external
`Resample.get`, modelled as the name itself (no claim depends on it). -/
def mk_center_crop (size : SizeArg) (align_corners : Bool) (resample : String)
    (p : Rat) (keepdim return_transform : Bool) (cropping_mode : String) :
    Except String CenterCrop :=
  match size with
  | .pair a b =>
      .ok { size := (a, b), align_corners := align_corners, resample := resample,
            cropping_mode := cropping_mode, same_on_batch := true,
            baseP := 1, basePBatch := p, return_transform := return_transform,
            keepdim := keepdim }
  | .int s =>
      .ok { size := (s, s), align_corners := align_corners, resample := resample,
            cropping_mode := cropping_mode, same_on_batch := true,
            baseP := 1, basePBatch := p, return_transform := return_transform,
            keepdim := keepdim }
  | .other t =>
      .error ("Invalid size type. Expected (int, tuple(int, int). Got: " ++ t ++ ".")

/-- `CenterCrop.generate_parameters(batch_shape)`: delegates to
`rg.center_crop_generator(batch_shape[0], batch_shape[-2], batch_shape[-1],
self.size, self.device)`.  The generator's corner coordinates do not depend
on the batch size (they are computed once), so only the spatial extents are
passed through. -/
def generateParameters (cc : CenterCrop) (height width : Nat) : CropParams :=
  center_crop_generator height width cc.size

/-- `CenterCrop.compute_transformation(input, params)`:
`get_perspective_transform(params["src"], params["dst"])` followed by
`.expand(input.shape[0], -1, -1)`. -/
def computeTransformation (solve : Solver) (_cc : CenterCrop) (input : Tensor4)
    (params : CropParams) : Except String BatchedMat :=
  expandBatch input.B (get_perspective_transform solve params)

/-- The shared-batch branch of the slice mode:
`input[..., y1[0]:y2[0], x1[0]:x2[0]]` with
`x1 = src[:, 0, 0]`, `x2 = src[:, 1, 0] + 1`,
`y1 = src[:, 0, 1]`, `y2 = src[:, 3, 1] + 1`. -/
def sharedSlice (input : Tensor4) (params : CropParams) : Tensor4 :=
  sliceHW input
    ((params.src 0 0).2) ((params.src 0 3).2 + 1)
    ((params.src 0 0).1) ((params.src 0 1).1 + 1)

/-- The per-sample fallback loop of the slice mode: an output of shape
`(B, C, size)` is allocated and row `i` is filled with
`input[i:i+1, :, y1[i]:y2[i], x1[i]:x2[i]]` (the assignment presupposes the
slice shape matches `size`; the model records the copied pixels). -/
def perSampleLoop (input : Tensor4) (params : CropParams) (size : Nat × Nat) :
    Tensor4 :=
  { B := input.B, C := input.C, H := size.1, W := size.2,
    data := fun b c i j =>
      input.data b c
        (pyIdx input.H ((params.src b 0).2) + i)
        (pyIdx input.W ((params.src b 0).1) + j) }

/-- `CenterCrop.apply_transform(input, params, transform)`.  Mode
`"resample"` calls `crop_by_transform_mat(input, transform[:, :2, :],
self.size, resample-name, "zeros", align_corners)` (slicing the matrix to its
top two rows is a view the warp kernel consumes; the model passes the batch
of matrices through).  Mode `"slice"` reads the corner tensor `src` as
integer coordinates and branches on `self.same_on_batch`: the shared slice
when it is set, the per-sample loop otherwise.  Any other mode raises
`NotImplementedError(f"Not supported type: {self.flags['cropping_mode']}.")`. -/
def applyTransform (interp : Interp) (cc : CenterCrop) (input : Tensor4)
    (params : CropParams) (transform : Option BatchedMat) :
    Except String Tensor4 :=
  if cc.cropping_mode = "resample" then
    match transform with
    | some m =>
        .ok (crop_by_transform_mat interp input m cc.size cc.resample "zeros"
          cc.align_corners)
    | none => .error "TypeError: transform is None"
  else if cc.cropping_mode = "slice" then
    if cc.same_on_batch then
      .ok (sharedSlice input params)
    else
      .ok (perSampleLoop input params cc.size)
  else
    .error ("Not supported type: " ++ cc.cropping_mode ++ ".")

/-- The keyword-argument overrides `inverse_transform` accepts
(`mode`, `align_corners`, `padding_mode`); an absent key is `none`. -/
structure InvKwargs where
  mode : Option String
  align_corners : Option Bool
  padding_mode : Option String

/-- `CenterCrop.inverse_transform(input, transform, size, **kwargs)`.
A mode other than `"resample"` raises `NotImplementedError(f"`inverse` is
only applicable for resample cropping mode. Got
{self.flags['cropping_mode']}.")`.  Otherwise `size` defaults to
`self.size`, the kwargs default to the stored flags (`padding_mode` to
`"zeros"`), and the warp kernel is applied. -/
def inverseTransform (interp : Interp) (cc : CenterCrop) (input : Tensor4)
    (transform : BatchedMat) (size : Option (Nat × Nat)) (kw : InvKwargs) :
    Except String Tensor4 :=
  if cc.cropping_mode ≠ "resample" then
    .error ("`inverse` is only applicable for resample cropping mode. Got " ++
      cc.cropping_mode ++ ".")
  else
    let sz := size.getD cc.size
    let mode := kw.mode.getD cc.resample
    let align := kw.align_corners.getD cc.align_corners
    let pad := kw.padding_mode.getD "zeros"
    .ok (crop_by_transform_mat interp input transform sz mode pad align)

/-! ## Concrete instances used by examples, witnesses and counterexamples -/

/-- A concrete interpolation kernel (every theorem quantified over the kernel
is instantiated with it in witnesses; its values are irrelevant there). -/
def interp0 : Interp := fun _ _ _ _ _ _ _ _ _ _ => 0

/-- A concrete perspective solver for witnesses. -/
def solve0 : Solver := fun _ _ => fun _ _ => 0

/-- Modelled from the spec: the perspective solve on an axis-aligned crop
correspondence (corners ordered top-left, top-right, bottom-right,
bottom-left) — per §4.2 the "exact solution for axis-aligned crop
correspondences (affine, no perspective distortion) — effectively reduces to
a translation+scale": the unique matrix is `[[sx, 0, tx], [0, sy, ty],
[0, 0, 1]]` with the scales the side-length ratios and the translations
fixed by the top-left corners. -/
def solveAxisAligned : Solver := fun src dst =>
  let sx : Rat := (((dst 1).1 : Rat) - ((dst 0).1 : Rat)) /
    (((src 1).1 : Rat) - ((src 0).1 : Rat))
  let sy : Rat := (((dst 3).2 : Rat) - ((dst 0).2 : Rat)) /
    (((src 3).2 : Rat) - ((src 0).2 : Rat))
  let tx : Rat := ((dst 0).1 : Rat) - sx * ((src 0).1 : Rat)
  let ty : Rat := ((dst 0).2 : Rat) - sy * ((src 0).2 : Rat)
  fun i j =>
    match i, j with
    | 0, 0 => sx | 0, 1 => 0  | 0, 2 => tx
    | 1, 0 => 0  | 1, 1 => sy | 1, 2 => ty
    | 2, 0 => 0  | 2, 1 => 0  | 2, 2 => 1

/-- The configuration produced by `CenterCrop(2, cropping_mode="slice")` with
the default flags. -/
def ccSlice2 : CenterCrop :=
  { size := (2, 2), align_corners := true, resample := "bilinear",
    cropping_mode := "slice", same_on_batch := true, baseP := 1,
    basePBatch := 1, return_transform := false, keepdim := false }

/-- The configuration produced by `CenterCrop(2, cropping_mode="resample")`
with the default flags. -/
def ccResample2 : CenterCrop :=
  { size := (2, 2), align_corners := true, resample := "bilinear",
    cropping_mode := "resample", same_on_batch := true, baseP := 1,
    basePBatch := 1, return_transform := false, keepdim := false }

/-- A concrete `(1, 1, 4, 4)` input whose pixel `(b, c, i, j)` holds the
value `1000 b + 100 c + 10 i + j`, so every in-range pixel is distinct. -/
def input1 : Tensor4 :=
  { B := 1, C := 1, H := 4, W := 4,
    data := fun b c i j => ((b * 1000 + c * 100 + i * 10 + j : Nat) : Int) }

/-- A concrete `(2, 1, 4, 4)` input with pairwise distinct in-range pixels. -/
def input5 : Tensor4 :=
  { B := 2, C := 1, H := 4, W := 4,
    data := fun b c i j => ((b * 1000 + c * 100 + i * 10 + j : Nat) : Int) }

/-- A parameter mapping whose crop coordinates are NOT uniform across the
batch: sample 0 crops the `2 × 2` block at the top-left corner, sample 1 the
`2 × 2` block at the bottom-right corner. -/
def params5 : CropParams :=
  { N := 2,
    src := fun b k =>
      if b = 0 then
        match k with
        | 0 => (0, 0) | 1 => (1, 0) | 2 => (1, 1) | 3 => (0, 1)
      else
        match k with
        | 0 => (2, 2) | 1 => (3, 2) | 2 => (3, 3) | 3 => (2, 3),
    dst := fun _ k =>
      match k with
      | 0 => (0, 0) | 1 => (1, 0) | 2 => (1, 1) | 3 => (0, 1) }

/-- The configuration produced by `CenterCrop(2, cropping_mode="crop")`:
a mode that is neither `"slice"` nor `"resample"`. -/
def ccBogus : CenterCrop :=
  { size := (2, 2), align_corners := true, resample := "bilinear",
    cropping_mode := "crop", same_on_batch := true, baseP := 1,
    basePBatch := 1, return_transform := false, keepdim := false }

/-- A concrete batch of transform matrices. -/
def tm1 : BatchedMat := { N := 1, mat := fun _ => fun _ _ => 0 }

/-- No keyword overrides. -/
def kwNone : InvKwargs := { mode := none, align_corners := none, padding_mode := none }

/-- The tensor `apply_transform` produces in resample mode from `input1`
under the kernel `interp0`: shape `(1, 1, 2, 2)`, all pixels `0`. -/
def cropOut : Tensor4 :=
  { B := 1, C := 1, H := 2, W := 2, data := fun _ _ _ _ => 0 }

/-! ## Helper lemmas -/

/-- A nonnegative slice endpoint below the axis length is kept as is. -/
lemma pyIdx_natCast (len n : Nat) : pyIdx len (n : Int) = min n len := by
  simp [pyIdx]

/-- Truncating division agrees with natural division on a nonnegative
difference. -/
lemma sub_tdiv_two (a b : Nat) (h : b ≤ a) :
    ((a : Int) - (b : Int)).tdiv 2 = (((a - b) / 2 : Nat) : Int) := by
  have e : ((a : Int) - (b : Int)) = ((a - b : Nat) : Int) := by omega
  rw [e]
  rfl

/-- In slice mode with `same_on_batch` set, `apply_transform` returns the
shared slice. -/
lemma applyTransform_slice_shared (interp : Interp) (cc : CenterCrop)
    (hmode : cc.cropping_mode = "slice") (hsame : cc.same_on_batch = true)
    (input : Tensor4) (params : CropParams) (t : Option BatchedMat) :
    applyTransform interp cc input params t = .ok (sharedSlice input params) := by
  simp [applyTransform, hmode, hsame]

/-- In slice mode with `same_on_batch` unset, `apply_transform` returns the
per-sample loop result. -/
lemma applyTransform_slice_loop (interp : Interp) (cc : CenterCrop)
    (hmode : cc.cropping_mode = "slice") (hsame : cc.same_on_batch = false)
    (input : Tensor4) (params : CropParams) (t : Option BatchedMat) :
    applyTransform interp cc input params t = .ok (perSampleLoop input params cc.size) := by
  simp [applyTransform, hmode, hsame]

/-- In resample mode, `apply_transform` applies the warp kernel. -/
lemma applyTransform_resample (interp : Interp) (cc : CenterCrop)
    (hmode : cc.cropping_mode = "resample")
    (input : Tensor4) (params : CropParams) (tm : BatchedMat) :
    applyTransform interp cc input params (some tm) =
      .ok (crop_by_transform_mat interp input tm cc.size cc.resample "zeros"
        cc.align_corners) := by
  simp [applyTransform, hmode]

/-- The shared slice of center-crop generator parameters has exactly the
requested spatial size whenever it fits in the input. -/
lemma sharedSlice_generator_shape (input : Tensor4) (h w : Nat)
    (hh : h ≤ input.H) (hw : w ≤ input.W) :
    (sharedSlice input (center_crop_generator input.H input.W (h, w))).H = h ∧
    (sharedSlice input (center_crop_generator input.H input.W (h, w))).W = w := by
  have ey := sub_tdiv_two input.H h hh
  have ex := sub_tdiv_two input.W w hw
  simp only [sharedSlice, center_crop_generator, sliceHW]
  rw [ey, ex]
  constructor
  · have e2 : ((((input.H - h) / 2 : Nat) : Int) + (h : Int) - 1 + 1) =
        (((input.H - h) / 2 + h : Nat) : Int) := by push_cast; ring
    rw [e2, pyIdx_natCast, pyIdx_natCast]
    omega
  · have e2 : ((((input.W - w) / 2 : Nat) : Int) + (w : Int) - 1 + 1) =
        (((input.W - w) / 2 + w : Nat) : Int) := by push_cast; ring
    rw [e2, pyIdx_natCast, pyIdx_natCast]
    omega

/-! ## Claims -/

/-- C1: for a `(1, 1, 4, 4)` input and a `CenterCrop` built with crop size
`2` in slice mode, `apply_transform` on the generated center-crop parameters
returns the `2 × 2` center block: the output has spatial size `2 × 2` and its
pixel `(i, j)` is an exact copy of input pixel `(i + 1, j + 1)` (rows and
columns 1–2 of the 0-indexed `4 × 4` grid). -/
theorem claim_C1_center_block :
    mk_center_crop (.int 2) true "bilinear" 1 false false "slice" = .ok ccSlice2 ∧
    ∃ out, applyTransform interp0 ccSlice2 input1
        (generateParameters ccSlice2 input1.H input1.W) none = .ok out ∧
      out.H = 2 ∧ out.W = 2 ∧
      ∀ i j : Fin 2, out.data 0 0 i.val j.val =
        input1.data 0 0 (i.val + 1) (j.val + 1) := by
  refine ⟨rfl, sharedSlice input1 (generateParameters ccSlice2 input1.H input1.W),
    applyTransform_slice_shared interp0 ccSlice2 rfl rfl input1 _ none, ?_, ?_, ?_⟩
  · decide
  · decide
  · decide

/-- C2: whenever the input's spatial size is at least the configured crop
size `(h, w)` and the parameters come from the center-crop generator, the
output of `apply_transform` has spatial size exactly `(h, w)`, in slice mode
and in resample mode alike. -/
theorem claim_C2_output_size (interp : Interp) (align : Bool) (rs : String)
    (p : Rat) (kd rt : Bool) (h w : Nat) (input : Tensor4)
    (hh : h ≤ input.H) (hw : w ≤ input.W) (ccS ccR : CenterCrop)
    (hS : mk_center_crop (.pair h w) align rs p kd rt "slice" = .ok ccS)
    (hR : mk_center_crop (.pair h w) align rs p kd rt "resample" = .ok ccR)
    (tm : BatchedMat) :
    ((applyTransform interp ccS input
        (generateParameters ccS input.H input.W) none).toOption.map
        (fun t => (t.H, t.W)) = some (h, w)) ∧
    ((applyTransform interp ccR input
        (generateParameters ccR input.H input.W) (some tm)).toOption.map
        (fun t => (t.H, t.W)) = some (h, w)) := by
  simp only [mk_center_crop, Except.ok.injEq] at hS hR
  subst hS
  subst hR
  constructor
  · rw [applyTransform_slice_shared interp _ rfl rfl input _ none]
    have hsh := sharedSlice_generator_shape input h w hh hw
    simp only [generateParameters] at hsh ⊢
    simp [Except.toOption, hsh.1, hsh.2]
  · rw [applyTransform_resample interp _ rfl input _ tm]
    simp [Except.toOption, crop_by_transform_mat]

/-- Witness for C2 at the concrete `(1, 1, 4, 4)` input and crop size `2`. -/
theorem claim_C2_witness :
    ((applyTransform interp0 ccSlice2 input1
        (generateParameters ccSlice2 input1.H input1.W) none).toOption.map
        (fun t => (t.H, t.W)) = some (2, 2)) ∧
    ((applyTransform interp0 ccResample2 input1
        (generateParameters ccResample2 input1.H input1.W) (some tm1)).toOption.map
        (fun t => (t.H, t.W)) = some (2, 2)) :=
  claim_C2_output_size interp0 true "bilinear" 1 false false 2 2 input1
    (by decide) (by decide) ccSlice2 ccResample2 rfl rfl tm1

/-- C3: whenever the cropping mode is not `"resample"` (in particular
`"slice"`), `inverse_transform` raises the documented error naming the
required mode, for every input, transform, size and overrides. -/
theorem claim_C3_inverse_requires_resample (interp : Interp) (cc : CenterCrop)
    (hmode : cc.cropping_mode ≠ "resample") (input : Tensor4) (tm : BatchedMat)
    (size : Option (Nat × Nat)) (kw : InvKwargs) :
    inverseTransform interp cc input tm size kw =
      .error ("`inverse` is only applicable for resample cropping mode. Got " ++
        cc.cropping_mode ++ ".") := by
  simp [inverseTransform, hmode]

/-- Witness for C3: a slice-mode configuration rejects `inverse`. -/
theorem claim_C3_witness :
    inverseTransform interp0 ccSlice2 input1 tm1 none kwNone =
      .error ("`inverse` is only applicable for resample cropping mode. Got " ++
        ccSlice2.cropping_mode ++ ".") :=
  claim_C3_inverse_requires_resample interp0 ccSlice2 (by decide) input1 tm1 none kwNone

/-- C4 counterexample: a resample-mode `CenterCrop(2)` forward-crops a
`(1, 1, 4, 4)` input to `(1, 1, 2, 2)`; calling `inverse_transform` on that
output with the `size` argument omitted yields a tensor of spatial size
`(2, 2)` — the configured crop size — and not `(4, 4)`, the original input
image's size, contrary to the claim. -/
theorem claim_C4_counterexample :
    mk_center_crop (.int 2) true "bilinear" 1 false false "resample" = .ok ccResample2 ∧
    applyTransform interp0 ccResample2 input1
      (generateParameters ccResample2 input1.H input1.W) (some tm1) = .ok cropOut ∧
    (inverseTransform interp0 ccResample2 cropOut tm1 none kwNone).toOption.map
      (fun t => (t.H, t.W)) = some (2, 2) ∧
    (inverseTransform interp0 ccResample2 cropOut tm1 none kwNone).toOption.map
      (fun t => (t.H, t.W)) ≠ some (4, 4) := by
  refine ⟨rfl, rfl, rfl, by decide⟩

/-- C4 (amended): in resample mode, `inverse_transform` produces a tensor of
the requested spatial size when a `size` argument is given, and of the
configured crop size (`self.size`) when the `size` argument is omitted (the
original image's size is not recovered by `inverse_transform` itself; a
caller wanting it must pass it explicitly). -/
theorem claim_C4_inverse_size (interp : Interp) (cc : CenterCrop)
    (hmode : cc.cropping_mode = "resample") (input : Tensor4)
    (tm : BatchedMat) (kw : InvKwargs) :
    (∀ sz : Nat × Nat, (inverseTransform interp cc input tm (some sz) kw).toOption.map
      (fun t => (t.H, t.W)) = some sz) ∧
    ((inverseTransform interp cc input tm none kw).toOption.map
      (fun t => (t.H, t.W)) = some cc.size) := by
  constructor
  · intro sz
    simp [inverseTransform, hmode, Except.toOption, crop_by_transform_mat]
  · simp [inverseTransform, hmode, Except.toOption, crop_by_transform_mat]

/-- Witness for the amended C4: requested size `(4, 4)` is honoured, and an
omitted size falls back to the crop size `(2, 2)`. -/
theorem claim_C4_witness :
    ((inverseTransform interp0 ccResample2 cropOut tm1 (some (4, 4)) kwNone).toOption.map
      (fun t => (t.H, t.W)) = some (4, 4)) ∧
    ((inverseTransform interp0 ccResample2 cropOut tm1 none kwNone).toOption.map
      (fun t => (t.H, t.W)) = some ccResample2.size) :=
  ⟨(claim_C4_inverse_size interp0 ccResample2 rfl cropOut tm1 kwNone).1 (4, 4),
   (claim_C4_inverse_size interp0 ccResample2 rfl cropOut tm1 kwNone).2⟩

/-- C5 counterexample: with crop coordinates that are NOT uniform across the
batch (sample 0 crops top-left, sample 1 bottom-right), slice-mode
`apply_transform` still performs the single shared slice with sample 0's
coordinates — it does not fall back to the per-sample loop: output pixel
`(1, 0, 0, 0)` is input pixel `(1, 0, 0, 0)` (shared slice), not input pixel
`(1, 0, 2, 2)` as the per-sample loop the claim mandates would give. -/
theorem claim_C5_counterexample :
    mk_center_crop (.int 2) true "bilinear" 1 false false "slice" = .ok ccSlice2 ∧
    params5.src 0 0 ≠ params5.src 1 0 ∧
    applyTransform interp0 ccSlice2 input5 params5 none =
      .ok (sharedSlice input5 params5) ∧
    (sharedSlice input5 params5).data 1 0 0 0 = input5.data 1 0 0 0 ∧
    (perSampleLoop input5 params5 ccSlice2.size).data 1 0 0 0 =
      input5.data 1 0 2 2 ∧
    input5.data 1 0 0 0 ≠ input5.data 1 0 2 2 := by
  exact ⟨rfl, by decide,
    applyTransform_slice_shared interp0 ccSlice2 rfl rfl input5 params5 none,
    by decide, by decide, by decide⟩

/-- C5 (amended): the slice branch of `apply_transform` selects between the
shared slice and the per-sample loop by the `same_on_batch` flag alone — it
never inspects the coordinates for uniformity.  With the flag set (as
`CenterCrop` always sets it) the whole batch is sliced with sample 0's
coordinates; the per-sample loop would run only with the flag unset. -/
theorem claim_C5_branch_on_flag (interp : Interp) (cc : CenterCrop)
    (hmode : cc.cropping_mode = "slice") (input : Tensor4)
    (params : CropParams) (t : Option BatchedMat) :
    (cc.same_on_batch = true →
      applyTransform interp cc input params t = .ok (sharedSlice input params)) ∧
    (cc.same_on_batch = false →
      applyTransform interp cc input params t =
        .ok (perSampleLoop input params cc.size)) :=
  ⟨fun hs => applyTransform_slice_shared interp cc hmode hs input params t,
   fun hs => applyTransform_slice_loop interp cc hmode hs input params t⟩

/-- Witness for the amended C5: the always-set flag routes the non-uniform
`params5` through the shared slice. -/
theorem claim_C5_witness :
    applyTransform interp0 ccSlice2 input5 params5 none =
      .ok (sharedSlice input5 params5) :=
  (claim_C5_branch_on_flag interp0 ccSlice2 rfl input5 params5 none).1 rfl

/-- C6 counterexample: `compute_transformation` does not return equal
matrices for *every* params mapping.  On `params5`, whose two per-sample
correspondences differ (sample 0 maps the top-left block identically,
sample 1 translates the bottom-right block), `.expand(B, -1, -1)` is a
no-op on the already-batch-sized `(2, 3, 3)` solve result, and the two
returned matrices differ in their translation entry (`0` versus `-2`). -/
theorem claim_C6_counterexample :
    params5.N = input5.B ∧
    params5.src 0 0 ≠ params5.src 1 0 ∧
    (computeTransformation solveAxisAligned ccSlice2 input5 params5).toOption.map
      (fun m => m.mat 0 0 2) = some 0 ∧
    (computeTransformation solveAxisAligned ccSlice2 input5 params5).toOption.map
      (fun m => m.mat 1 0 2) = some (-2) ∧
    (computeTransformation solveAxisAligned ccSlice2 input5 params5).toOption.map
      (fun m => m.mat 0 0 2) ≠
    (computeTransformation solveAxisAligned ccSlice2 input5 params5).toOption.map
      (fun m => m.mat 1 0 2) := by
  have hM : computeTransformation solveAxisAligned ccSlice2 input5 params5 =
      .ok { N := 2,
            mat := fun i => solveAxisAligned (params5.src i) (params5.dst i) } := rfl
  have h0 : solveAxisAligned (params5.src 0) (params5.dst 0) 0 2 = 0 := by
    show ((0 : Int) : Rat) -
        (((1 : Int) : Rat) - ((0 : Int) : Rat)) /
          (((1 : Int) : Rat) - ((0 : Int) : Rat)) * ((0 : Int) : Rat) = 0
    norm_num
  have h1 : solveAxisAligned (params5.src 1) (params5.dst 1) 0 2 = -2 := by
    show ((0 : Int) : Rat) -
        (((1 : Int) : Rat) - ((0 : Int) : Rat)) /
          (((3 : Int) : Rat) - ((2 : Int) : Rat)) * ((2 : Int) : Rat) = -2
    norm_num
  have hA : (computeTransformation solveAxisAligned ccSlice2 input5 params5).toOption.map
      (fun m => m.mat 0 0 2) = some 0 := by
    rw [hM]; simp [Except.toOption, h0]
  have hB : (computeTransformation solveAxisAligned ccSlice2 input5 params5).toOption.map
      (fun m => m.mat 1 0 2) = some (-2) := by
    rw [hM]; simp [Except.toOption, h1]
  refine ⟨rfl, by decide, hA, hB, ?_⟩
  rw [hA, hB]
  intro hEq
  have hv := Option.some.inj hEq
  norm_num at hv

/-- C6 (amended): on parameters produced by the center-crop generator —
the only parameters this operator creates, carrying a single src→dst
correspondence — `compute_transformation` solves that correspondence once
and broadcasts the matrix across the batch: the result is the batch of
`input.B` copies of the one solved matrix (shape `(B, 3, 3)`, all equal),
for every perspective solver.  For a params mapping with differing
per-sample correspondences the broadcast is a no-op and the matrices
differ. -/
theorem claim_C6_single_transform_broadcast (solve : Solver) (cc : CenterCrop)
    (input : Tensor4) (height width : Nat) (params : CropParams)
    (hp : params = generateParameters cc height width) :
    computeTransformation solve cc input params =
      .ok { N := input.B, mat := fun _ => solve (params.src 0) (params.dst 0) } := by
  subst hp
  rfl

/-- Witness for C6 at the `(1, 1, 4, 4)` input and crop size `2`. -/
theorem claim_C6_witness :
    computeTransformation solve0 ccSlice2 input1 (generateParameters ccSlice2 4 4) =
      .ok { N := input1.B,
            mat := fun _ => solve0 ((generateParameters ccSlice2 4 4).src 0)
              ((generateParameters ccSlice2 4 4).dst 0) } :=
  claim_C6_single_transform_broadcast solve0 ccSlice2 input1 4 4
    (generateParameters ccSlice2 4 4) rfl

/-- C7: a `CenterCrop` constructed with a cropping mode other than
`"slice"` and `"resample"` makes `apply_transform` raise the
`Not supported type` error naming that mode, for every input, parameters and
transform. -/
theorem claim_C7_unsupported_mode (mode : String)
    (h1 : mode ≠ "slice") (h2 : mode ≠ "resample") (size : SizeArg)
    (align : Bool) (rs : String) (p : Rat) (kd rt : Bool) (cc : CenterCrop)
    (hmk : mk_center_crop size align rs p kd rt mode = .ok cc)
    (interp : Interp) (input : Tensor4) (params : CropParams)
    (t : Option BatchedMat) :
    applyTransform interp cc input params t =
      .error ("Not supported type: " ++ mode ++ ".") := by
  cases size with
  | int s =>
      simp only [mk_center_crop, Except.ok.injEq] at hmk
      subst hmk
      simp [applyTransform, h1, h2]
  | pair a b =>
      simp only [mk_center_crop, Except.ok.injEq] at hmk
      subst hmk
      simp [applyTransform, h1, h2]
  | other ty =>
      simp only [mk_center_crop] at hmk
      exact Except.noConfusion hmk

/-- Witness for C7: the mode `"crop"` is rejected by `apply_transform`. -/
theorem claim_C7_witness :
    applyTransform interp0 ccBogus input1
        (generateParameters ccBogus input1.H input1.W) none =
      .error ("Not supported type: " ++ "crop" ++ ".") :=
  claim_C7_unsupported_mode "crop" (by decide) (by decide) (.int 2) true
    "bilinear" 1 false false ccBogus rfl interp0 input1
    (generateParameters ccBogus input1.H input1.W) none

/-- C8: the constructor rejects a `size` of any type other than int and
tuple with an error naming the offending type; an int `s` is stored as the
crop size `(s, s)` and a tuple as `(size[0], size[1])`. -/
theorem claim_C8_size_validation :
    (∀ (ty : String) (align : Bool) (rs : String) (p : Rat) (kd rt : Bool)
      (mode : String),
      mk_center_crop (.other ty) align rs p kd rt mode =
        .error ("Invalid size type. Expected (int, tuple(int, int). Got: " ++
          ty ++ ".")) ∧
    (∀ (s : Nat) (align : Bool) (rs : String) (p : Rat) (kd rt : Bool)
      (mode : String),
      (mk_center_crop (.int s) align rs p kd rt mode).toOption.map
        (fun cc => cc.size) = some (s, s)) ∧
    (∀ (a b : Nat) (align : Bool) (rs : String) (p : Rat) (kd rt : Bool)
      (mode : String),
      (mk_center_crop (.pair a b) align rs p kd rt mode).toOption.map
        (fun cc => cc.size) = some (a, b)) :=
  ⟨fun _ _ _ _ _ _ _ => rfl, fun _ _ _ _ _ _ _ => rfl, fun _ _ _ _ _ _ _ _ => rfl⟩

/-- C9: `apply_transform`, `compute_transformation` and `inverse_transform`
are deterministic functions of their arguments and the frozen configuration:
replaying the same input and parameter mapping reproduces identical
outputs. -/
theorem claim_C9_deterministic (interp : Interp) (solve : Solver)
    (cc : CenterCrop) (i1 i2 : Tensor4) (p1 p2 : CropParams)
    (t1 t2 : Option BatchedMat) (m1 m2 : BatchedMat)
    (s1 s2 : Option (Nat × Nat)) (k1 k2 : InvKwargs)
    (hi : i1 = i2) (hp : p1 = p2) (ht : t1 = t2) (hm : m1 = m2)
    (hs : s1 = s2) (hk : k1 = k2) :
    applyTransform interp cc i1 p1 t1 = applyTransform interp cc i2 p2 t2 ∧
    computeTransformation solve cc i1 p1 = computeTransformation solve cc i2 p2 ∧
    inverseTransform interp cc i1 m1 s1 k1 = inverseTransform interp cc i2 m2 s2 k2 := by
  subst hi; subst hp; subst ht; subst hm; subst hs; subst hk
  exact ⟨rfl, rfl, rfl⟩

/-- Witness for C9 at concrete arguments. -/
theorem claim_C9_witness :
    applyTransform interp0 ccSlice2 input1 params5 none =
      applyTransform interp0 ccSlice2 input1 params5 none ∧
    computeTransformation solve0 ccSlice2 input1 params5 =
      computeTransformation solve0 ccSlice2 input1 params5 ∧
    inverseTransform interp0 ccSlice2 input1 tm1 none kwNone =
      inverseTransform interp0 ccSlice2 input1 tm1 none kwNone :=
  claim_C9_deterministic interp0 solve0 ccSlice2 input1 input1 params5 params5
    none none tm1 tm1 none none kwNone kwNone rfl rfl rfl rfl rfl rfl

/-- C10: every constructed `CenterCrop` passes `same_on_batch=True` and
`p=1.0` to the base class, with the user's `p` forwarded as the whole-batch
probability `p_batch`; consequently the slice branch of `apply_transform`
always takes the shared-slice path and the per-sample loop is never
executed. -/
theorem claim_C10_always_same_on_batch (size : SizeArg) (align : Bool)
    (rs : String) (p : Rat) (kd rt : Bool) (mode : String) (cc : CenterCrop)
    (hmk : mk_center_crop size align rs p kd rt mode = .ok cc) :
    cc.same_on_batch = true ∧ cc.baseP = 1 ∧ cc.basePBatch = p ∧
    ∀ (interp : Interp) (input : Tensor4) (params : CropParams)
      (t : Option BatchedMat), cc.cropping_mode = "slice" →
      applyTransform interp cc input params t = .ok (sharedSlice input params) := by
  cases size with
  | int s =>
      simp only [mk_center_crop, Except.ok.injEq] at hmk
      subst hmk
      exact ⟨rfl, rfl, rfl, fun interp input params t hmode =>
        applyTransform_slice_shared interp _ hmode rfl input params t⟩
  | pair a b =>
      simp only [mk_center_crop, Except.ok.injEq] at hmk
      subst hmk
      exact ⟨rfl, rfl, rfl, fun interp input params t hmode =>
        applyTransform_slice_shared interp _ hmode rfl input params t⟩
  | other ty =>
      simp only [mk_center_crop] at hmk
      exact Except.noConfusion hmk

/-- Witness for C10: `CenterCrop(2, p=1, cropping_mode="slice")` has the
base-class flags fixed and its slice branch takes the shared path on the
generated parameters. -/
theorem claim_C10_witness :
    ccSlice2.same_on_batch = true ∧ ccSlice2.baseP = 1 ∧
    ccSlice2.basePBatch = 1 ∧
    applyTransform interp0 ccSlice2 input1
        (generateParameters ccSlice2 input1.H input1.W) none =
      .ok (sharedSlice input1 (generateParameters ccSlice2 input1.H input1.W)) :=
  ⟨(claim_C10_always_same_on_batch (.int 2) true "bilinear" 1 false false
      "slice" ccSlice2 rfl).1,
   (claim_C10_always_same_on_batch (.int 2) true "bilinear" 1 false false
      "slice" ccSlice2 rfl).2.1,
   (claim_C10_always_same_on_batch (.int 2) true "bilinear" 1 false false
      "slice" ccSlice2 rfl).2.2.1,
   (claim_C10_always_same_on_batch (.int 2) true "bilinear" 1 false false
      "slice" ccSlice2 rfl).2.2.2 interp0 input1
      (generateParameters ccSlice2 input1.H input1.W) none rfl⟩

end CenterCropSpec
